import Mathlib

/-!
Verification development for the Longstaff–Schwartz least-squares Monte-Carlo
pricing notebook (single-asset and multi-asset variants).

The Python source is shallowly embedded over the real numbers:
* numpy arrays become `List ℝ` / `List (List ℝ)` (the float32 storage of the
  multi-asset simulator is abstracted to ℝ, as is float64 everywhere else);
* `raise ValueError(msg)` becomes `Except.error msg`;
* the global numpy pseudo-random generator is modelled by a generator state
  `state : ℕ` together with a deterministic draw stream passed as a function
  parameter `normals` (the Mersenne–Twister values themselves are opaque;
  every property proved here is independent of the concrete values, and
  concrete instantiations below use a simple injective stand-in stream);
* `np.polyfit` is an external library routine; the engines are parameterised
  by the regression routine `fit`, and the concrete stand-in `np_polyfit`
  below satisfies numpy's documented output contract (a coefficient vector of
  length `deg + 1`, highest power first; for degree 0 it is the exact
  least-squares solution, the mean of `Y`).
Row access is modelled totally via `List.getD`; Python would raise an
`IndexError` on an empty matrix, a degenerate case excluded by every theorem
below.
-/

noncomputable section

/-- `np.polyval(coeff, x)`: Horner evaluation, highest-order coefficient first. -/
def polyval (coeff : List ℝ) (x : ℝ) : ℝ :=
  coeff.foldl (fun acc c => acc * x + c) 0

/-- `np.mean` of a vector. -/
def listMean (l : List ℝ) : ℝ := l.sum / l.length

/-- `np.amax` of a vector (Python raises on an empty vector; 0 is a junk value). -/
def listMax : List ℝ → ℝ
  | [] => 0
  | a :: l => l.foldl max a

/-- Elementwise combination of three equal-length vectors, used to render
`np.where(exercise > continuation, exercise, V)`. -/
def zipWith3 {α : Type} (f : α → α → α → α) : List α → List α → List α → List α
  | a :: as, b :: bs, c :: cs => f a b c :: zipWith3 f as bs cs
  | _, _, _ => []

/-- Type of the polynomial regression routine (`np.polyfit`): data `X`, targets
`Y`, degree; returns the fitted coefficient vector, highest power first. -/
abbrev Fit := List ℝ → List ℝ → ℕ → List ℝ

/-- Concrete stand-in for `np.polyfit` obeying numpy's documented contract:
the result has length `deg + 1` (highest power first), and for degree 0 it is
the exact ordinary-least-squares solution, the mean of `Y`.  Higher-degree
coefficient values are irrelevant to every property proved in this file. -/
def np_polyfit : Fit := fun _X Y deg => List.replicate deg 0 ++ [listMean Y]

/-- Deterministic stand-in for the seeded `np.random.standard_normal((M, I))`
stream of the single-asset simulator: the draw at position `(t, i)` is a fixed
injective function of the generator state and the position. -/
def np_standard_normal (state t i : ℕ) : ℝ := ((state + t + i : ℕ) : ℝ)

/-- Deterministic stand-in for the seeded `np.random.randn(num_paths, dimension)`
stream of the multi-asset simulator, one draw per `(step, path, asset)`. -/
def np_randn (state step p j : ℕ) : ℝ := ((state + step + p + j : ℕ) : ℝ)

/-- One path entry of the single-asset GBM recursion
`paths[t] = paths[t-1] * np.exp(drift + vol * rand_numbers[t-1])`. -/
def gbmEntry (S0 drift vol : ℝ) (Z : ℕ → ℕ → ℝ) : ℕ → ℕ → ℝ
  | 0, _ => S0
  | t + 1, i => gbmEntry S0 drift vol Z t i * Real.exp (drift + vol * Z t i)

/-- `simulate_gbm` (single-asset).  `normals` is the PRNG draw stream and
`state` the ambient generator state; `np.random.seed(seed)` (executed only when
`seed is not None`) replaces the generator state by the seed.  `M` and `I` are
naturals (Python additionally checks `isinstance(param, int)`), so the
positivity check becomes a zero check. -/
def simulate_gbm (normals : ℕ → ℕ → ℕ → ℝ) (state : ℕ)
    (S0 r dividend sigma T : ℝ) (M I : ℕ) (seed : Option ℕ) :
    Except String (List (List ℝ)) :=
  if S0 ≤ 0 ∨ T ≤ 0 ∨ sigma < 0 then
    Except.error "S0, T must be positive; sigma must be non-negative"
  else if M = 0 ∨ I = 0 then
    Except.error "M and I must be positive integers"
  else
    let dt : ℝ := T / (M : ℝ)
    let st : ℕ := match seed with | some s => s | none => state
    let drift : ℝ := (r - dividend - 0.5 * sigma ^ 2) * dt
    let vol : ℝ := sigma * Real.sqrt dt
    Except.ok ((List.range (M + 1)).map fun t =>
      (List.range I).map fun i => gbmEntry S0 drift vol (fun a b => normals st a b) t i)

/-- Body of the backward-induction loop of the single-asset
`longstaff_schwartz_train` (lines: in-the-money mask, `Y = V[itm] * discount`,
`np.polyfit`, `np.polyval`, `np.where(exercise > continuation, exercise, V)`). -/
def trainStep (fit : Fit) (K discount : ℝ) (degree : ℕ)
    (current_prices V : List ℝ) : Option (List ℝ) × List ℝ :=
  let itm := (current_prices.zip V).filter fun p => p.1 > K
  let X := itm.map Prod.fst
  let Y := itm.map fun p => p.2 * discount
  if X = [] then (none, V)
  else
    let coeff := fit X Y degree
    let continuation := current_prices.map (polyval coeff)
    let exercise := current_prices.map fun s => max (s - K) 0
    (some coeff, zipWith3 (fun e c v => if e > c then e else v) exercise continuation V)

/-- The training loop `for t in reversed(range(1, M))`: `trainFrom … t V`
processes dates `t, t-1, …, 1`, returning the coefficient list in the order
appended by the Python loop (latest date first) together with the final value
vector. -/
def trainFrom (fit : Fit) (paths : List (List ℝ)) (K discount : ℝ) (degree : ℕ) :
    ℕ → List ℝ → List (Option (List ℝ)) × List ℝ
  | 0, V => ([], V)
  | t + 1, V =>
    let st := trainStep fit K discount degree (paths.getD (t + 1) []) V
    let rest := trainFrom fit paths K discount degree t st.2
    (st.1 :: rest.1, rest.2)

/-- Single-asset `longstaff_schwartz_train`.  (`degree : ℕ`, so the Python
check `degree < 0` cannot fire.) -/
def longstaff_schwartz_train (fit : Fit) (S_paths_train : List (List ℝ))
    (K r T : ℝ) (degree : ℕ) : Except String (List (Option (List ℝ))) :=
  let M : ℤ := (S_paths_train.length : ℤ) - 1
  if K ≤ 0 ∨ T ≤ 0 then
    Except.error "K, T must be positive; degree must be non-negative"
  else
    let dt : ℝ := T / (M : ℝ)
    let discount : ℝ := Real.exp (-r * dt)
    let V : List ℝ :=
      (S_paths_train.getD (S_paths_train.length - 1) []).map fun s => max (s - K) 0
    Except.ok ((trainFrom fit S_paths_train K discount degree (M - 1).toNat V).1).reverse

/-- Body of the evaluation loop of the single-asset `longstaff_schwartz_test`
for a date whose coefficient entry is present (no re-fitting). -/
def testStep (K : ℝ) (coeff : List ℝ) (current_prices V : List ℝ) : List ℝ :=
  let continuation := current_prices.map (polyval coeff)
  let exercise := current_prices.map fun s => max (s - K) 0
  zipWith3 (fun e c v => if e > c then e else v) exercise continuation V

/-- The evaluation loop `for t in reversed(range(1, M))` of
`longstaff_schwartz_test`: at date `t` the entry `coefficients[t-1]` is read;
a `None` entry is skipped (`continue`). -/
def testFrom (coefficients : List (Option (List ℝ))) (paths : List (List ℝ))
    (K : ℝ) : ℕ → List ℝ → List ℝ
  | 0, V => V
  | t + 1, V =>
    match coefficients.getD t none with
    | none => testFrom coefficients paths K t V
    | some c => testFrom coefficients paths K t (testStep K c (paths.getD (t + 1) []) V)

/-- Single-asset `longstaff_schwartz_test`. -/
def longstaff_schwartz_test (S_paths_test : List (List ℝ)) (K r T : ℝ)
    (coefficients : List (Option (List ℝ))) : Except String ℝ :=
  let M : ℤ := (S_paths_test.length : ℤ) - 1
  if (coefficients.length : ℤ) ≠ M - 1 then
    Except.error "Coefficients length mismatch with time steps"
  else
    let dt : ℝ := T / (M : ℝ)
    let V : List ℝ :=
      (S_paths_test.getD (S_paths_test.length - 1) []).map fun s => max (s - K) 0
    Except.ok (listMean (testFrom coefficients S_paths_test K (M - 1).toNat V)
      * Real.exp (-r * dt))

/-- The notebook's single-asset orchestration cell: simulate training paths,
train, simulate test paths, price (with `np.polyfit` as the regression). -/
def lsm_pipeline (normals : ℕ → ℕ → ℕ → ℝ) (state : ℕ)
    (S0 r dividend sigma T : ℝ) (M I_train I_test : ℕ) (K : ℝ) (degree : ℕ)
    (seed_train seed_test : ℕ) : Except String ℝ :=
  match simulate_gbm normals state S0 r dividend sigma T M I_train (some seed_train) with
  | Except.error e => Except.error e
  | Except.ok trained_s =>
    match longstaff_schwartz_train np_polyfit trained_s K r T degree with
    | Except.error e => Except.error e
    | Except.ok coeffs =>
      match simulate_gbm normals state S0 r dividend sigma T M I_test (some seed_test) with
      | Except.error e => Except.error e
      | Except.ok tested_s => longstaff_schwartz_test tested_s K r T coeffs

/-- One per-asset entry of the multi-asset GBM recursion
`paths[:, :, step] = paths[:, :, step-1] * np.exp(drift + diffusion * rand)`
(the float32 storage is abstracted to ℝ). -/
def gbmMultiEntry (s0 drift diffusion : ℝ) (Z : ℕ → ℝ) : ℕ → ℝ
  | 0 => s0
  | s + 1 => gbmMultiEntry s0 drift diffusion Z s * Real.exp (drift + diffusion * Z (s + 1))

/-- `simulate_gbm_multi`.  `dividend_rates` is scalar-or-array
(`Union[float, np.ndarray]`); the seeding line `np.random.seed(seed) if seed
else None` seeds only when `seed` is truthy, i.e. present and nonzero.
`n_steps = int(time_horizon / time_step)` truncates; the result has shape
`(num_paths, dimension, n_steps + 1)`. -/
def simulate_gbm_multi (normals : ℕ → ℕ → ℕ → ℕ → ℝ) (state : ℕ) (dimension : ℕ)
    (risk_free_rate : ℝ) (dividend_rates : ℝ ⊕ List ℝ) (sigma initial_prices : List ℝ)
    (time_horizon time_step : ℝ) (num_paths : ℕ) (seed : Option ℕ) :
    Except String (List (List (List ℝ))) :=
  if dimension = 0 then Except.error "Dimension must be >= 1"
  else if sigma.length ≠ dimension ∨ initial_prices.length ≠ dimension then
    Except.error "Parameter shape mismatch"
  else if time_horizon ≤ 0 ∨ time_step ≤ 0 then
    Except.error "Time parameters must be positive"
  else if num_paths = 0 then Except.error "Number of paths must be >= 1"
  else if risk_free_rate < 0 then Except.error "Risk-free rate cannot be negative"
  else if (match dividend_rates with
           | Sum.inl _ => false
           | Sum.inr arr => arr.length != dimension) then
    Except.error "Dividend rates shape mismatch"
  else
    let st : ℕ := match seed with
      | some s => if s = 0 then state else s
      | none => state
    let q : List ℝ := match dividend_rates with
      | Sum.inl x => List.replicate dimension x
      | Sum.inr arr => arr
    let n_steps : ℕ := Nat.floor (time_horizon / time_step)
    Except.ok ((List.range num_paths).map fun p =>
      (List.range dimension).map fun j =>
        (List.range (n_steps + 1)).map fun s =>
          gbmMultiEntry (initial_prices.getD j 0)
            ((risk_free_rate - q.getD j 0 - 0.5 * (sigma.getD j 0) ^ 2) * time_step)
            (sigma.getD j 0 * Real.sqrt time_step)
            (fun step => normals st step p j) s)

/-- `bermudan_max_call_payoff`: per path, `max(amax(prices over assets) - K, 0)`. -/
def bermudan_max_call_payoff (underlying_prices : List (List ℝ)) (strike_price : ℝ) :
    List ℝ :=
  underlying_prices.map fun row => max (listMax row - strike_price) 0

/-- Column `price_paths[:, step]` of a paths-by-dates matrix. -/
def MultiD.col (price_paths : List (List ℝ)) (step : ℕ) : List ℝ :=
  price_paths.map fun row => row.getD step 0

/-- Body of the backward-induction loop of the multi-asset
`longstaff_schwartz_train` (payoffs via `bermudan_max_call_payoff` on the
column viewed as one-asset rows, `current_prices[:, None]`). -/
def MultiD.trainStep (fit : Fit) (strike discount : ℝ) (poly_degree : ℕ)
    (current_prices value_func : List ℝ) : Option (List ℝ) × List ℝ :=
  let itm := (current_prices.zip value_func).filter fun p => p.1 > strike
  let X := itm.map Prod.fst
  let Y := itm.map fun p => p.2 * discount
  if X = [] then (none, value_func)
  else
    let coeff := fit X Y poly_degree
    let continuation := current_prices.map (polyval coeff)
    let exercise := bermudan_max_call_payoff (current_prices.map fun s => [s]) strike
    (some coeff, zipWith3 (fun e c v => if e > c then e else v) exercise continuation value_func)

/-- The multi-asset training loop `for step in reversed(range(1, exercise_steps))`. -/
def MultiD.trainFrom (fit : Fit) (price_paths : List (List ℝ)) (strike discount : ℝ)
    (poly_degree : ℕ) : ℕ → List ℝ → List (Option (List ℝ)) × List ℝ
  | 0, V => ([], V)
  | t + 1, V =>
    let st := MultiD.trainStep fit strike discount poly_degree
      (MultiD.col price_paths (t + 1)) V
    let rest := MultiD.trainFrom fit price_paths strike discount poly_degree t st.2
    (st.1 :: rest.1, rest.2)

/-- Multi-asset `longstaff_schwartz_train` (operating on the maxed
paths-by-dates matrix of shape `(num_paths, total_steps)`). -/
def MultiD.longstaff_schwartz_train (fit : Fit) (price_paths : List (List ℝ))
    (strike_price risk_free_rate maturity : ℝ) (poly_degree : ℕ) :
    Except String (List (Option (List ℝ))) :=
  let total_steps : ℕ := (price_paths.headD []).length
  let exercise_steps : ℤ := (total_steps : ℤ) - 1
  if strike_price ≤ 0 ∨ maturity ≤ 0 then Except.error "Invalid parameter values"
  else
    let dt : ℝ := maturity / (exercise_steps : ℝ)
    let discount_factor : ℝ := Real.exp (-risk_free_rate * dt)
    let value_func : List ℝ :=
      bermudan_max_call_payoff (price_paths.map fun row => [row.getD (total_steps - 1) 0])
        strike_price
    Except.ok ((MultiD.trainFrom fit price_paths strike_price discount_factor poly_degree
      (exercise_steps - 1).toNat value_func).1).reverse

/-- Body of the multi-asset evaluation loop for a date with a present entry. -/
def MultiD.evalStep (strike : ℝ) (coeff : List ℝ) (current_prices value_func : List ℝ) :
    List ℝ :=
  let continuation := current_prices.map (polyval coeff)
  let exercise := bermudan_max_call_payoff (current_prices.map fun s => [s]) strike
  zipWith3 (fun e c v => if e > c then e else v) exercise continuation value_func

/-- The multi-asset evaluation loop `for step in reversed(range(1, exercise_steps))`
of `longstaff_schwartz_evaluate`; a `None` entry at `coefficients[step-1]` is
skipped. -/
def MultiD.evalFrom (coefficients : List (Option (List ℝ))) (price_paths : List (List ℝ))
    (strike : ℝ) : ℕ → List ℝ → List ℝ
  | 0, V => V
  | t + 1, V =>
    match coefficients.getD t none with
    | none => MultiD.evalFrom coefficients price_paths strike t V
    | some c => MultiD.evalFrom coefficients price_paths strike t
        (MultiD.evalStep strike c (MultiD.col price_paths (t + 1)) V)

/-- Multi-asset `longstaff_schwartz_evaluate`. -/
def longstaff_schwartz_evaluate (price_paths : List (List ℝ))
    (strike_price risk_free_rate maturity : ℝ)
    (coefficients : List (Option (List ℝ))) : Except String ℝ :=
  let total_steps : ℕ := (price_paths.headD []).length
  let exercise_steps : ℤ := (total_steps : ℤ) - 1
  if (coefficients.length : ℤ) ≠ exercise_steps - 1 then
    Except.error "Coefficients/exercise steps mismatch"
  else
    let dt : ℝ := maturity / (exercise_steps : ℝ)
    let value_func : List ℝ :=
      bermudan_max_call_payoff (price_paths.map fun row => [row.getD (total_steps - 1) 0])
        strike_price
    Except.ok (listMean (MultiD.evalFrom coefficients price_paths strike_price
      (exercise_steps - 1).toNat value_func) * Real.exp (-risk_free_rate * dt))

/-! ### Analysis helpers: per-date view of the backward induction

`runDown f t s V` runs the backward loop body `f` over dates `t, t-1, …, s+1`,
stopping just before date `s`; together with the definitions below it names
"the value vector held when the training loop reaches date `t`" and "the
coefficient recorded at date `t`", which the theorems relate to the reversed
list returned by `longstaff_schwartz_train`. -/

def runDown (f : ℕ → List ℝ → List ℝ) : ℕ → ℕ → List ℝ → List ℝ
  | 0, _, V => V
  | t + 1, s, V => if t + 1 ≤ s then V else runDown f t s (f (t + 1) V)

/-- The value-vector transformer of one training date. -/
def trainValStep (fit : Fit) (paths : List (List ℝ)) (K discount : ℝ) (deg : ℕ)
    (t : ℕ) (V : List ℝ) : List ℝ :=
  (trainStep fit K discount deg (paths.getD t []) V).2

/-- The single-step discount factor computed by the single-asset train/test
functions (`exp(-r * T/M)` with `M` = number of rows minus one). -/
def trainDiscount (paths : List (List ℝ)) (r T : ℝ) : ℝ :=
  Real.exp (-r * (T / (((paths.length : ℤ) - 1 : ℤ) : ℝ)))

/-- The terminal value vector `np.maximum(paths[-1] - K, 0)`. -/
def trainV0 (paths : List (List ℝ)) (K : ℝ) : List ℝ :=
  (paths.getD (paths.length - 1) []).map fun s => max (s - K) 0

/-- The value vector held by the training loop as it is about to process
date `t` (dates `M-1, …, t+1` already processed). -/
def trainVbefore (fit : Fit) (paths : List (List ℝ)) (K r T : ℝ) (deg : ℕ)
    (t : ℕ) : List ℝ :=
  runDown (trainValStep fit paths K (trainDiscount paths r T) deg)
    ((paths.length : ℤ) - 2).toNat t (trainV0 paths K)

/-- The coefficient entry (`Some` fit or `None` marker) produced at interior
date `t` during the backward induction of `longstaff_schwartz_train`. -/
def trainCoeffAt (fit : Fit) (paths : List (List ℝ)) (K r T : ℝ) (deg : ℕ)
    (t : ℕ) : Option (List ℝ) :=
  (trainStep fit K (trainDiscount paths r T) deg (paths.getD t [])
    (trainVbefore fit paths K r T deg t)).1

/-- The evaluation engine's date-`t` action given the date's coefficient entry:
skip on the no-fit marker, otherwise evaluate the fitted polynomial. -/
def testUpdate (K : ℝ) (entry : Option (List ℝ)) (current_prices V : List ℝ) : List ℝ :=
  match entry with
  | none => V
  | some c => testStep K c current_prices V

theorem trainFrom_length (fit : Fit) (paths : List (List ℝ)) (K discount : ℝ)
    (deg : ℕ) : ∀ (t : ℕ) (V : List ℝ),
    ((trainFrom fit paths K discount deg t V).1).length = t := by
  intro t
  induction t with
  | zero => intro V; rfl
  | succ t ih => intro V; simp only [trainFrom, List.length_cons, ih]

theorem trainFrom_reverse_getD (fit : Fit) (paths : List (List ℝ))
    (K discount : ℝ) (deg : ℕ) : ∀ (t : ℕ) (V : List ℝ) (s : ℕ), 1 ≤ s → s ≤ t →
    ((trainFrom fit paths K discount deg t V).1).reverse.getD (s - 1) none =
      (trainStep fit K discount deg (paths.getD s [])
        (runDown (trainValStep fit paths K discount deg) t s V)).1 := by
  intro t
  induction t with
  | zero => intro V s h1 h0; omega
  | succ t ih =>
    intro V s h1 hst
    simp only [trainFrom, List.reverse_cons]
    rcases Nat.lt_or_ge (s - 1) t with hlt | hge
    · rw [List.getD_append _ _ _ _ (by
        rw [List.length_reverse, trainFrom_length]; exact hlt)]
      rw [ih _ s h1 (by omega)]
      have hns : ¬ (t + 1 ≤ s) := by omega
      conv_rhs => rw [runDown]
      rw [if_neg hns]
      rfl
    · have hs : s = t + 1 := by omega
      subst hs
      rw [List.getD_append_right _ _ _ _ (by
        rw [List.length_reverse, trainFrom_length]; omega)]
      rw [List.length_reverse, trainFrom_length]
      have : t + 1 - 1 - t = 0 := by omega
      rw [this]
      conv_rhs => rw [runDown]
      rw [if_pos (le_refl (t + 1))]
      rfl

theorem multi_trainFrom_length (fit : Fit) (paths : List (List ℝ))
    (strike discount : ℝ) (deg : ℕ) : ∀ (t : ℕ) (V : List ℝ),
    ((MultiD.trainFrom fit paths strike discount deg t V).1).length = t := by
  intro t
  induction t with
  | zero => intro V; rfl
  | succ t ih => intro V; simp only [MultiD.trainFrom, List.length_cons, ih]

/-- Claim C5: for every path matrix with `M+1` dates and every coefficient
series whose length differs from `M-1` (shorter or longer), the evaluation
function fails with the coefficient-mismatch error, returning no partial
result — in the single-asset variant (dates are the rows) and in the
multi-asset variant (dates are the columns). -/
theorem C5_coefficient_mismatch :
    (∀ (paths : List (List ℝ)) (K r T : ℝ) (cs : List (Option (List ℝ))),
      (cs.length : ℤ) ≠ (paths.length : ℤ) - 2 →
      longstaff_schwartz_test paths K r T cs =
        Except.error "Coefficients length mismatch with time steps") ∧
    (∀ (paths : List (List ℝ)) (K r T : ℝ) (cs : List (Option (List ℝ))),
      (cs.length : ℤ) ≠ ((paths.headD []).length : ℤ) - 2 →
      longstaff_schwartz_evaluate paths K r T cs =
        Except.error "Coefficients/exercise steps mismatch") := by
  constructor
  · intro paths K r T cs h
    unfold longstaff_schwartz_test
    rw [if_pos (by omega)]
  · intro paths K r T cs h
    unfold longstaff_schwartz_evaluate
    rw [if_pos (by omega)]

/-- Witness for C5 at concrete inputs: a 3-date single-asset matrix rejects
both an empty (too short) and a two-entry (too long) series, and a 3-date
multi-asset matrix rejects an empty series. -/
theorem C5_coefficient_mismatch_witness :
    longstaff_schwartz_test [[1], [1], [1]] 1 0 1 [] =
      Except.error "Coefficients length mismatch with time steps" ∧
    longstaff_schwartz_test [[1], [1], [1]] 1 0 1 [none, none] =
      Except.error "Coefficients length mismatch with time steps" ∧
    longstaff_schwartz_evaluate [[1, 1, 1]] 1 0 1 [] =
      Except.error "Coefficients/exercise steps mismatch" :=
  ⟨C5_coefficient_mismatch.1 _ 1 0 1 _ (by norm_num),
   C5_coefficient_mismatch.1 _ 1 0 1 _ (by norm_num),
   C5_coefficient_mismatch.2 _ 1 0 1 _ (by norm_num)⟩

/-- Claim C6: for every valid training matrix with `M+1` dates (`M ≥ 1`) and
valid strike/maturity, any rate, any degree and any regression routine, the
training function returns a coefficient series of length exactly `M-1`, in
both variants. -/
theorem C6_train_length :
    (∀ (fit : Fit) (paths : List (List ℝ)) (K r T : ℝ) (deg : ℕ),
      0 < K → 0 < T → 2 ≤ paths.length →
      ∃ cs, longstaff_schwartz_train fit paths K r T deg = Except.ok cs ∧
        cs.length = paths.length - 2) ∧
    (∀ (fit : Fit) (paths : List (List ℝ)) (K r T : ℝ) (deg : ℕ),
      0 < K → 0 < T → 2 ≤ (paths.headD []).length →
      ∃ cs, MultiD.longstaff_schwartz_train fit paths K r T deg = Except.ok cs ∧
        cs.length = (paths.headD []).length - 2) := by
  constructor
  · intro fit paths K r T deg hK hT hM
    unfold longstaff_schwartz_train
    rw [if_neg (by push_neg; constructor <;> linarith)]
    refine ⟨_, rfl, ?_⟩
    rw [List.length_reverse, trainFrom_length]
    omega
  · intro fit paths K r T deg hK hT hM
    unfold MultiD.longstaff_schwartz_train
    rw [if_neg (by push_neg; constructor <;> linarith)]
    refine ⟨_, rfl, ?_⟩
    rw [List.length_reverse, multi_trainFrom_length]
    omega

/-- Witness for C6: a 4-date (`M = 3`) single-asset matrix yields a series of
length 2, and a 3-date multi-asset matrix yields a series of length 1. -/
theorem C6_train_length_witness :
    (∃ cs, longstaff_schwartz_train np_polyfit [[1], [1], [1], [1]] 1 0 1 5 =
      Except.ok cs ∧ cs.length = 2) ∧
    (∃ cs, MultiD.longstaff_schwartz_train np_polyfit [[1, 1, 1]] 1 0 1 5 =
      Except.ok cs ∧ cs.length = 1) :=
  ⟨C6_train_length.1 np_polyfit _ 1 0 1 5 (by norm_num) (by norm_num) (by norm_num),
   C6_train_length.2 np_polyfit _ 1 0 1 5 (by norm_num) (by norm_num) (by norm_num)⟩

/-- Entry `(date t, path i)` of a single-asset simulation result. -/
def simEntry1D (res : Except String (List (List ℝ))) (t i : ℕ) : ℝ :=
  ((res.toOption.getD []).getD t []).getD i 0

/-- Entry `(path p, asset j, date s)` of a multi-asset simulation result. -/
def simEntryMulti (res : Except String (List (List (List ℝ)))) (p j s : ℕ) : ℝ :=
  (((res.toOption.getD []).getD p []).getD j []).getD s 0

theorem gbmEntry_pos (S0 drift vol : ℝ) (Z : ℕ → ℕ → ℝ) (hS0 : 0 < S0)
    (t i : ℕ) : 0 < gbmEntry S0 drift vol Z t i := by
  induction t with
  | zero => exact hS0
  | succ t ih => exact mul_pos ih (Real.exp_pos _)

theorem gbmMultiEntry_pos (s0 d f : ℝ) (Z : ℕ → ℝ) (h : 0 < s0) (s : ℕ) :
    0 < gbmMultiEntry s0 d f Z s := by
  induction s with
  | zero => exact h
  | succ s ih => exact mul_pos ih (Real.exp_pos _)

theorem getD_map_range {α : Type} (f : ℕ → α) (n t : ℕ) (d : α) (h : t < n) :
    ((List.range n).map f).getD t d = f t := by
  rw [List.getD_eq_getElem _ _ (by simpa using h)]
  rw [List.getElem_map, List.getElem_range]

theorem simulate_gbm_entry (normals : ℕ → ℕ → ℕ → ℝ) (state : ℕ)
    (S0 r q sigma T : ℝ) (M I : ℕ) (seed : Option ℕ)
    (h1 : ¬(S0 ≤ 0 ∨ T ≤ 0 ∨ sigma < 0)) (h2 : ¬(M = 0 ∨ I = 0))
    (t i : ℕ) (ht : t < M + 1) (hi : i < I) :
    simEntry1D (simulate_gbm normals state S0 r q sigma T M I seed) t i =
      gbmEntry S0 ((r - q - 0.5 * sigma ^ 2) * (T / (M : ℝ)))
        (sigma * Real.sqrt (T / (M : ℝ)))
        (fun a b => normals (match seed with | some s => s | none => state) a b)
        t i := by
  simp only [simulate_gbm, simEntry1D]
  rw [if_neg h1, if_neg h2]
  simp only [Except.toOption, Option.getD_some]
  rw [getD_map_range _ _ _ _ ht, getD_map_range _ _ _ _ hi]

theorem dividend_shape_check (dimension : ℕ) (dv : ℝ ⊕ List ℝ) :
    (∀ arr, dv = Sum.inr arr → arr.length = dimension) →
    ¬((match dv with
       | Sum.inl _ => false
       | Sum.inr arr => arr.length != dimension) = true) := by
  intro h
  rcases dv with x | arr
  · simp
  · simp [h arr rfl]

theorem simulate_gbm_multi_entry (normals : ℕ → ℕ → ℕ → ℕ → ℝ)
    (state dimension : ℕ) (r : ℝ) (dv : ℝ ⊕ List ℝ) (sigma initial : List ℝ)
    (T dt : ℝ) (np : ℕ) (seed : Option ℕ)
    (h1 : dimension ≠ 0) (h2 : sigma.length = dimension)
    (h3 : initial.length = dimension) (h4 : 0 < T) (h5 : 0 < dt) (h6 : np ≠ 0)
    (h7 : 0 ≤ r)
    (h8 : ∀ arr, dv = Sum.inr arr → arr.length = dimension)
    (p j s : ℕ) (hp : p < np) (hj : j < dimension)
    (hs : s < Nat.floor (T / dt) + 1) :
    simEntryMulti
      (simulate_gbm_multi normals state dimension r dv sigma initial T dt np seed)
      p j s =
      gbmMultiEntry (initial.getD j 0)
        ((r - (match dv with
                | Sum.inl x => List.replicate dimension x
                | Sum.inr arr => arr).getD j 0
          - 0.5 * (sigma.getD j 0) ^ 2) * dt)
        (sigma.getD j 0 * Real.sqrt dt)
        (fun step => normals
          (match seed with | some s0 => if s0 = 0 then state else s0 | none => state)
          step p j) s := by
  simp only [simulate_gbm_multi, simEntryMulti]
  rw [if_neg h1, if_neg (by push_neg; exact ⟨h2, h3⟩),
    if_neg (by push_neg; exact ⟨h4, h5⟩), if_neg h6, if_neg (by push_neg; exact h7),
    if_neg (dividend_shape_check dimension dv h8)]
  simp only [Except.toOption, Option.getD_some]
  rw [getD_map_range _ _ _ _ hp, getD_map_range _ _ _ _ hj,
    getD_map_range _ _ _ _ hs]

/-- Claim C9 counterexample: the multi-asset simulator accepts a negative
initial price and then produces a matrix whose date-0 entry is `-1 < 0`,
refuting "all entries are non-negative" for every produced matrix. -/
theorem C9_multi_negative_entry :
    simEntryMulti (simulate_gbm_multi np_randn 0 1 0 (Sum.inl 0) [1] [-1] 1 1 1 none)
      0 0 0 < 0 := by
  simp only [simulate_gbm_multi, simEntryMulti]
  norm_num [Except.toOption, List.range_succ, gbmMultiEntry]

/-- Claim C9 (amended): matrices produced by the single-asset simulator have
all entries strictly positive (validation enforces `S0 > 0`), date 0 equal to
`S0` on every path, and successive dates linked by the one-step GBM factor for
`dt = T/M`; multi-asset matrices have date 0 equal to the per-asset initial
price and successive dates linked by the one-step GBM factor for the
`time_step` argument, and their entries are strictly positive provided the
(unvalidated) initial prices are positive. -/
theorem C9_invariants_amended :
    (∀ (normals : ℕ → ℕ → ℕ → ℝ) (state : ℕ) (S0 r q sigma T : ℝ) (M I : ℕ)
      (seed : Option ℕ) (t i : ℕ),
      0 < S0 → 0 < T → 0 ≤ sigma → M ≠ 0 → I ≠ 0 → t ≤ M → i < I →
      (simulate_gbm normals state S0 r q sigma T M I seed).toOption.isSome = true ∧
      simEntry1D (simulate_gbm normals state S0 r q sigma T M I seed) 0 i = S0 ∧
      0 < simEntry1D (simulate_gbm normals state S0 r q sigma T M I seed) t i ∧
      (t < M →
        simEntry1D (simulate_gbm normals state S0 r q sigma T M I seed) (t + 1) i =
          simEntry1D (simulate_gbm normals state S0 r q sigma T M I seed) t i *
            Real.exp ((r - q - (0.5 : ℝ) * sigma ^ 2) * (T / (M : ℝ)) +
              sigma * Real.sqrt (T / (M : ℝ)) *
                normals (match seed with | some s => s | none => state) t i))) ∧
    (∀ (normals : ℕ → ℕ → ℕ → ℕ → ℝ) (state dimension : ℕ) (r : ℝ)
      (dv : ℝ ⊕ List ℝ) (sigma initial : List ℝ) (T dt : ℝ) (np : ℕ)
      (seed : Option ℕ) (p j s : ℕ),
      dimension ≠ 0 → sigma.length = dimension → initial.length = dimension →
      0 < T → 0 < dt → np ≠ 0 → 0 ≤ r →
      (∀ arr, dv = Sum.inr arr → arr.length = dimension) →
      (∀ x ∈ initial, 0 < x) →
      p < np → j < dimension → s < Nat.floor (T / dt) + 1 →
      (simulate_gbm_multi normals state dimension r dv sigma initial T dt np
        seed).toOption.isSome = true ∧
      simEntryMulti
        (simulate_gbm_multi normals state dimension r dv sigma initial T dt np seed)
        p j 0 = initial.getD j 0 ∧
      0 < simEntryMulti
        (simulate_gbm_multi normals state dimension r dv sigma initial T dt np seed)
        p j s ∧
      (s + 1 < Nat.floor (T / dt) + 1 →
        simEntryMulti
          (simulate_gbm_multi normals state dimension r dv sigma initial T dt np seed)
          p j (s + 1) =
        simEntryMulti
          (simulate_gbm_multi normals state dimension r dv sigma initial T dt np seed)
          p j s *
          Real.exp ((r - (match dv with
                          | Sum.inl x => List.replicate dimension x
                          | Sum.inr arr => arr).getD j 0
              - (0.5 : ℝ) * (sigma.getD j 0) ^ 2) * dt +
            sigma.getD j 0 * Real.sqrt dt *
              normals (match seed with
                       | some s0 => if s0 = 0 then state else s0
                       | none => state) (s + 1) p j))) := by
  constructor
  · intro normals state S0 r q sigma T M I seed t i hS0 hT hsig hM hI ht hi
    have h1 : ¬(S0 ≤ 0 ∨ T ≤ 0 ∨ sigma < 0) := by push_neg; exact ⟨hS0, hT, hsig⟩
    have h2 : ¬(M = 0 ∨ I = 0) := by push_neg; exact ⟨hM, hI⟩
    refine ⟨?_, ?_, ?_, ?_⟩
    · simp only [simulate_gbm]
      rw [if_neg h1, if_neg h2]
      rfl
    · rw [simulate_gbm_entry normals state S0 r q sigma T M I seed h1 h2 0 i
        (by omega) hi]
      rfl
    · rw [simulate_gbm_entry normals state S0 r q sigma T M I seed h1 h2 t i
        (by omega) hi]
      exact gbmEntry_pos _ _ _ _ hS0 t i
    · intro htM
      rw [simulate_gbm_entry normals state S0 r q sigma T M I seed h1 h2 (t + 1) i
        (by omega) hi,
        simulate_gbm_entry normals state S0 r q sigma T M I seed h1 h2 t i
        (by omega) hi]
      rfl
  · intro normals state dimension r dv sigma initial T dt np seed p j s
      h1 h2 h3 h4 h5 h6 h7 h8 hpos hp hj hs
    have hj0 : 0 < initial.getD j 0 := by
      rw [List.getD_eq_getElem _ _ (by omega)]
      exact hpos _ (List.getElem_mem _)
    refine ⟨?_, ?_, ?_, ?_⟩
    · simp only [simulate_gbm_multi]
      rw [if_neg h1, if_neg (by push_neg; exact ⟨h2, h3⟩),
        if_neg (by push_neg; exact ⟨h4, h5⟩), if_neg h6,
        if_neg (by push_neg; exact h7),
        if_neg (dividend_shape_check dimension dv h8)]
      rfl
    · rw [simulate_gbm_multi_entry normals state dimension r dv sigma initial T dt
        np seed h1 h2 h3 h4 h5 h6 h7 h8 p j 0 hp hj (by omega)]
      rfl
    · rw [simulate_gbm_multi_entry normals state dimension r dv sigma initial T dt
        np seed h1 h2 h3 h4 h5 h6 h7 h8 p j s hp hj hs]
      exact gbmMultiEntry_pos _ _ _ _ hj0 s
    · intro hs1
      rw [simulate_gbm_multi_entry normals state dimension r dv sigma initial T dt
        np seed h1 h2 h3 h4 h5 h6 h7 h8 p j (s + 1) hp hj hs1,
        simulate_gbm_multi_entry normals state dimension r dv sigma initial T dt
        np seed h1 h2 h3 h4 h5 h6 h7 h8 p j s hp hj hs]
      rfl

/-- Witness for C9 (amended) at concrete parameters: a seeded one-path
single-asset run (`S0 = 1`, `M = 1`) and an unseeded one-path one-asset
multi-asset run (`S0 = 2`). -/
theorem C9_invariants_witness :
    ((simulate_gbm np_standard_normal 0 1 0 0 0 1 1 1 (some 7)).toOption.isSome
        = true ∧
      simEntry1D (simulate_gbm np_standard_normal 0 1 0 0 0 1 1 1 (some 7)) 0 0
        = 1 ∧
      0 < simEntry1D (simulate_gbm np_standard_normal 0 1 0 0 0 1 1 1 (some 7))
        0 0 ∧
      (0 < 1 →
        simEntry1D (simulate_gbm np_standard_normal 0 1 0 0 0 1 1 1 (some 7)) 1 0 =
          simEntry1D (simulate_gbm np_standard_normal 0 1 0 0 0 1 1 1 (some 7)) 0 0 *
            Real.exp (((0 : ℝ) - (0 : ℝ) - (0.5 : ℝ) * (0 : ℝ) ^ 2) * ((1 : ℝ) / ((1 : ℕ) : ℝ)) +
              (0 : ℝ) * Real.sqrt ((1 : ℝ) / ((1 : ℕ) : ℝ)) *
                np_standard_normal
                  (match (some 7 : Option ℕ) with | some s => s | none => 0) 0 0))) ∧
    ((simulate_gbm_multi np_randn 0 1 0 (Sum.inl 0) [1] [2] 1 1 1
        none).toOption.isSome = true ∧
      simEntryMulti (simulate_gbm_multi np_randn 0 1 0 (Sum.inl 0) [1] [2] 1 1 1 none)
        0 0 0 = ([2] : List ℝ).getD 0 0 ∧
      0 < simEntryMulti
        (simulate_gbm_multi np_randn 0 1 0 (Sum.inl 0) [1] [2] 1 1 1 none) 0 0 0 ∧
      (0 + 1 < Nat.floor ((1 : ℝ) / 1) + 1 →
        simEntryMulti
          (simulate_gbm_multi np_randn 0 1 0 (Sum.inl 0) [1] [2] 1 1 1 none) 0 0
          (0 + 1) =
        simEntryMulti
          (simulate_gbm_multi np_randn 0 1 0 (Sum.inl 0) [1] [2] 1 1 1 none) 0 0 0 *
          Real.exp (((0 : ℝ) - (match (Sum.inl 0 : ℝ ⊕ List ℝ) with
                          | Sum.inl x => List.replicate 1 x
                          | Sum.inr arr => arr).getD 0 0
              - (0.5 : ℝ) * (([1] : List ℝ).getD 0 0) ^ 2) * (1 : ℝ) +
            ([1] : List ℝ).getD 0 0 * Real.sqrt 1 *
              np_randn (match (none : Option ℕ) with
                        | some s0 => if s0 = 0 then 0 else s0
                        | none => 0) (0 + 1) 0 0))) :=
  ⟨C9_invariants_amended.1 np_standard_normal 0 1 0 0 0 1 1 1 (some 7) 0 0
      (by norm_num) (by norm_num) (by norm_num) (by norm_num) (by norm_num)
      (by norm_num) (by norm_num),
   C9_invariants_amended.2 np_randn 0 1 0 (Sum.inl 0) [1] [2] 1 1 1 none 0 0 0
      (by norm_num) (by norm_num) (by norm_num) (by norm_num) (by norm_num)
      (by norm_num) (by norm_num) (by intro arr h; simp at h)
      (by intro x hx; simp at hx; subst hx; norm_num)
      (by norm_num) (by norm_num) (by norm_num)⟩

/-- Claim C3, evaluated at the failing input: with `S0 = 1, r = 1, q = 0,
sigma = 0, T = 2, M = 2, I = 1, K = 3, degree = 0` the simulated path is the
deterministic `1, e, e·e`; no interior date is in the money, so the pipeline
returns the terminal payoff `e·e - 3` discounted by a single step `exp(-1)`,
not the claimed `exp(-r·T) · max(S0·exp((r-q)·T) - K, 0) = exp(-2)·(e·e - 3)`:
the backward induction never discounts the carried value vector, and the
final price applies only one step of discounting. -/
theorem C3_pipeline_single_step_discount :
    lsm_pipeline np_standard_normal 0 1 1 0 0 2 2 1 1 3 0 42 45 =
      Except.ok ((Real.exp 1 * Real.exp 1 - 3) * Real.exp (-1)) ∧
    (Real.exp 1 * Real.exp 1 - 3) * Real.exp (-1) ≠
      Real.exp (-(1 * 2)) * max (1 * Real.exp ((1 - 0) * 2) - 3) 0 := by
  have he1 : Real.exp 1 < 2.7182818286 := Real.exp_one_lt_d9
  have he2 : 2.7182818283 < Real.exp 1 := Real.exp_one_gt_d9
  have hlt3 : Real.exp 1 < 3 := by linarith
  have hA : (3 : ℝ) < Real.exp 1 * Real.exp 1 := by nlinarith
  have hsim : ∀ (sd : Option ℕ),
      simulate_gbm np_standard_normal 0 1 1 0 0 2 2 1 sd =
        Except.ok [[1], [Real.exp 1], [Real.exp 1 * Real.exp 1]] := by
    intro sd
    simp only [simulate_gbm]
    rw [if_neg (by norm_num), if_neg (by norm_num)]
    norm_num [List.range_succ, gbmEntry]
  have htrain : longstaff_schwartz_train np_polyfit
      [[1], [Real.exp 1], [Real.exp 1 * Real.exp 1]] 3 1 2 0 =
      Except.ok [none] := by
    simp only [longstaff_schwartz_train]
    rw [if_neg (by norm_num)]
    norm_num [trainFrom, trainStep, List.filter_cons, not_lt.mpr hlt3.le]
  have htest : longstaff_schwartz_test
      [[1], [Real.exp 1], [Real.exp 1 * Real.exp 1]] 3 1 2 [none] =
      Except.ok ((Real.exp 1 * Real.exp 1 - 3) * Real.exp (-1)) := by
    simp only [longstaff_schwartz_test]
    rw [if_neg (by norm_num)]
    norm_num [testFrom, listMean,
      max_eq_left (by nlinarith : (0 : ℝ) ≤ Real.exp 1 * Real.exp 1 - 3)]
  constructor
  · simp only [lsm_pipeline]
    rw [hsim (some 42)]
    simp only []
    rw [htrain]
    simp only []
    rw [hsim (some 45)]
    simp only []
    exact htest
  · intro h
    have hmax : max (1 * Real.exp ((1 - 0) * 2) - 3) 0 =
        Real.exp 1 * Real.exp 1 - 3 := by
      rw [show ((1 : ℝ) - 0) * 2 = 1 + 1 by norm_num, Real.exp_add, one_mul]
      exact max_eq_left (by nlinarith)
    rw [hmax] at h
    have hA0 : Real.exp 1 * Real.exp 1 - 3 ≠ 0 := by nlinarith
    rw [mul_comm (Real.exp (-(1 * 2))) (Real.exp 1 * Real.exp 1 - 3)] at h
    have := mul_left_cancel₀ hA0 h
    rw [Real.exp_eq_exp] at this
    norm_num at this

/-- Claim C1, evaluated at the failing input: with date prices `[10.5]`,
carried value vector `[10]`, strike `10` and single-step discount `exp(-1)`
(so exercise `0.5` does not beat the continuation estimate `10 * exp(-1)`),
both the training loop body and the evaluation loop body keep the carried
entry `10` unchanged — not the one-step-discounted `exp(-1) * 10` that the
claim requires in the no-exercise branch. -/
theorem C1_carry_without_discount :
    (trainStep np_polyfit 10 (Real.exp (-1)) 0 [10.5] [10]).2 = [10] ∧
    testStep 10 [10 * Real.exp (-1)] [10.5] [10] = [10] ∧
    (10 : ℝ) ≠ Real.exp (-1) * 10 := by
  refine ⟨?_, ?_, ?_⟩
  · simp only [trainStep, List.zip_cons_cons, List.zip_nil_right, List.filter_cons,
      List.filter_nil, decide_eq_true_eq, np_polyfit, listMean, polyval, zipWith3]
    norm_num
    nlinarith [inv_mul_cancel₀ (ne_of_gt (Real.exp_pos 1)), Real.exp_one_lt_d9,
      Real.exp_pos 1, inv_pos.mpr (Real.exp_pos 1), Real.exp_neg 1]
  · simp only [testStep, polyval, zipWith3, List.map_cons, List.map_nil,
      List.foldl_cons, List.foldl_nil]
    norm_num
    nlinarith [inv_mul_cancel₀ (ne_of_gt (Real.exp_pos 1)), Real.exp_one_lt_d9,
      Real.exp_pos 1, inv_pos.mpr (Real.exp_pos 1), Real.exp_neg 1]
  · intro h
    have h1 : Real.exp (-1) < 1 := Real.exp_lt_one_iff.mpr (by norm_num)
    nlinarith

/-- Claim C2, evaluated at the failing input: the multi-asset simulator called
with seed 0 skips seeding (`np.random.seed(seed) if seed else None` treats 0
as falsy), so its output still depends on the ambient generator state — two
calls with identical parameters and seed 0 made in generator states 0 and 1
return different path matrices. -/
theorem C2_multi_seed_zero_not_reproducible :
    simulate_gbm_multi np_randn 0 1 0 (Sum.inl 0) [1] [1] 1 1 1 (some 0) ≠
      simulate_gbm_multi np_randn 1 1 0 (Sum.inl 0) [1] [1] 1 1 1 (some 0) := by
  intro h
  have e1 : ∀ (s0 d f : ℝ) (Z : ℕ → ℝ),
      gbmMultiEntry s0 d f Z 1 = s0 * Real.exp (d + f * Z 1) := fun _ _ _ _ => rfl
  simp only [simulate_gbm_multi, np_randn] at h
  norm_num [List.range_succ] at h
  rw [e1, e1] at h
  norm_num [gbmMultiEntry, Real.exp_eq_exp] at h

/-- Claim C4 counterexample: the multi-asset simulator accepts a negative
initial price together with a negative volatility (it validates neither), so
this invalid-parameter combination does not fail with an error. -/
theorem C4_multi_accepts_invalid :
    (simulate_gbm_multi np_randn 0 1 0 (Sum.inl 0) [-1] [-1] 1 1 1
      none).toOption.isSome = true := by
  simp only [simulate_gbm_multi]
  norm_num [Except.toOption]

/-- Claim C4 (amended): the single-asset simulator rejects every listed
invalid input; the multi-asset simulator rejects a zero dimension, mismatched
per-asset array lengths, non-positive time horizon or time step, a zero path
count, a negative risk-free rate and a mismatched dividend array — but (per
the counterexample) not non-positive initial prices or negative volatilities. -/
theorem C4_validation_amended :
    (∀ (normals : ℕ → ℕ → ℕ → ℝ) (state : ℕ) (S0 r q sigma T : ℝ) (M I : ℕ)
      (seed : Option ℕ),
      S0 ≤ 0 ∨ T ≤ 0 ∨ sigma < 0 ∨ M = 0 ∨ I = 0 →
      ∃ msg, simulate_gbm normals state S0 r q sigma T M I seed =
        Except.error msg) ∧
    (∀ (normals : ℕ → ℕ → ℕ → ℕ → ℝ) (state dimension : ℕ) (r : ℝ)
      (dv : ℝ ⊕ List ℝ) (sigma initial : List ℝ) (T dt : ℝ) (np : ℕ)
      (seed : Option ℕ),
      dimension = 0 ∨ sigma.length ≠ dimension ∨ initial.length ≠ dimension ∨
        T ≤ 0 ∨ dt ≤ 0 ∨ np = 0 ∨ r < 0 ∨
        (match dv with | Sum.inl _ => False | Sum.inr arr => arr.length ≠ dimension) →
      ∃ msg, simulate_gbm_multi normals state dimension r dv sigma initial T dt np
        seed = Except.error msg) := by
  constructor
  · intro normals state S0 r q sigma T M I seed h
    unfold simulate_gbm
    by_cases h1 : S0 ≤ 0 ∨ T ≤ 0 ∨ sigma < 0
    · exact ⟨"S0, T must be positive; sigma must be non-negative", by rw [if_pos h1]⟩
    · refine ⟨"M and I must be positive integers", ?_⟩
      rw [if_neg h1, if_pos (by tauto)]
  · intro normals state dimension r dv sigma initial T dt np seed h
    unfold simulate_gbm_multi
    by_cases h1 : dimension = 0
    · exact ⟨_, by rw [if_pos h1]⟩
    rw [if_neg h1]
    by_cases h2 : sigma.length ≠ dimension ∨ initial.length ≠ dimension
    · exact ⟨_, by rw [if_pos h2]⟩
    rw [if_neg h2]
    by_cases h3 : T ≤ 0 ∨ dt ≤ 0
    · exact ⟨_, by rw [if_pos h3]⟩
    rw [if_neg h3]
    by_cases h4 : np = 0
    · exact ⟨_, by rw [if_pos h4]⟩
    rw [if_neg h4]
    by_cases h5 : r < 0
    · exact ⟨_, by rw [if_pos h5]⟩
    rw [if_neg h5]
    rcases dv with x | arr
    · simp only [not_or] at h1 h2 h3
      tauto
    · have harr : arr.length ≠ dimension := by tauto
      refine ⟨"Dividend rates shape mismatch", ?_⟩
      rw [if_pos (by simpa using harr)]

/-- Witness for C4 (amended): the single-asset simulator rejects `S0 = 0`,
and the multi-asset simulator rejects a zero time step. -/
theorem C4_validation_witness :
    (∃ msg, simulate_gbm np_standard_normal 0 0 0 0 0 1 1 1 none =
      Except.error msg) ∧
    (∃ msg, simulate_gbm_multi np_randn 0 1 0 (Sum.inl 0) [1] [1] 1 0 1 none =
      Except.error msg) :=
  ⟨C4_validation_amended.1 np_standard_normal 0 0 0 0 0 1 1 1 none
      (Or.inl (by norm_num)),
   C4_validation_amended.2 np_randn 0 1 0 (Sum.inl 0) [1] [1] 1 0 1 none
      (by norm_num)⟩

/-- Claim C7: the series returned by training is chronological — the entry at
position `t-1` is exactly the coefficient entry produced at date `t` during
the backward induction — and the evaluation loop's action at date `t` applies
exactly that entry (evaluate-or-skip, no re-fitting). -/
theorem C7_chronological_order :
    ∀ (fit : Fit) (paths : List (List ℝ)) (K r T : ℝ) (deg : ℕ)
      (cs : List (Option (List ℝ))),
      0 < K → 0 < T → 2 ≤ paths.length →
      longstaff_schwartz_train fit paths K r T deg = Except.ok cs →
      ∀ (t : ℕ), 1 ≤ t → t ≤ paths.length - 2 →
      ∀ (tp : List (List ℝ)) (K2 : ℝ) (V : List ℝ),
      cs.getD (t - 1) none = trainCoeffAt fit paths K r T deg t ∧
      testFrom cs tp K2 t V =
        testFrom cs tp K2 (t - 1)
          (testUpdate K2 (trainCoeffAt fit paths K r T deg t) (tp.getD t []) V) := by
  intro fit paths K r T deg cs hK hT hlen hok t ht1 ht2 tp K2 V
  simp only [longstaff_schwartz_train] at hok
  rw [if_neg (by push_neg; constructor <;> linarith)] at hok
  rw [Except.ok.injEq] at hok
  have htop : ((paths.length : ℤ) - 1 - 1).toNat = ((paths.length : ℤ) - 2).toNat := by
    omega
  have hchron : cs.getD (t - 1) none = trainCoeffAt fit paths K r T deg t := by
    rw [← hok]
    simp only [trainCoeffAt, trainVbefore, trainDiscount, trainV0]
    rw [← htop]
    exact trainFrom_reverse_getD fit paths K _ deg _ _ t ht1 (by omega)
  refine ⟨hchron, ?_⟩
  obtain ⟨t', rfl⟩ : ∃ t', t = t' + 1 := ⟨t - 1, by omega⟩
  simp only [Nat.add_sub_cancel] at hchron ⊢
  conv_lhs => rw [testFrom]
  rw [hchron]
  cases htc : trainCoeffAt fit paths K r T deg (t' + 1) with
  | none => rfl
  | some c => rfl

/-- Witness for C7 on the concrete matrix `[[1],[2],[5]]` (`M = 2`): training
records `[some [4]]`, its sole entry is the date-1 fit, and the evaluation
loop at date 1 applies exactly that entry. -/
theorem C7_chronological_order_witness :
    ([some [4]] : List (Option (List ℝ))).getD 0 none =
      trainCoeffAt np_polyfit [[1], [2], [5]] 1 0 2 0 1 ∧
    testFrom [some [4]] [[1], [3], [4]] 2 1 [7] =
      testFrom [some [4]] [[1], [3], [4]] 2 0
        (testUpdate 2 (trainCoeffAt np_polyfit [[1], [2], [5]] 1 0 2 0 1)
          (([[1], [3], [4]] : List (List ℝ)).getD 1 []) [7]) :=
  C7_chronological_order np_polyfit [[1], [2], [5]] 1 0 2 0 [some [4]]
    (by norm_num) (by norm_num) (by norm_num)
    (by norm_num [longstaff_schwartz_train, trainFrom, trainStep, np_polyfit,
      listMean, polyval, zipWith3])
    1 (by norm_num) (by norm_num) [[1], [3], [4]] 2 [7]

/-- Claim C8: at a date where no training path's basis price strictly exceeds
the strike, the training loop body records the no-fit marker and leaves the
value vector unchanged; and the evaluation loop skips a date whose series
entry is the no-fit marker without updating its value vector. -/
theorem C8_no_fit_skip :
    ∀ (fit : Fit) (K discount : ℝ) (deg : ℕ) (prices V : List ℝ)
      (cs : List (Option (List ℝ))) (tp : List (List ℝ)) (K2 : ℝ) (t : ℕ)
      (V2 : List ℝ),
      (∀ s ∈ prices, s ≤ K) →
      cs.getD t none = none →
      trainStep fit K discount deg prices V = (none, V) ∧
      testFrom cs tp K2 (t + 1) V2 = testFrom cs tp K2 t V2 := by
  intro fit K discount deg prices V cs tp K2 t V2 hle hnone
  constructor
  · have hfilter : ((prices.zip V).filter fun p => p.1 > K) = [] := by
      rw [List.filter_eq_nil_iff]
      intro p hp
      simp only [decide_eq_true_eq, not_lt, gt_iff_lt]
      exact hle _ (List.of_mem_zip hp).1
    simp [trainStep, hfilter]
  · conv_lhs => rw [testFrom]
    rw [hnone]

/-- Witness for C8: with strike 5 the date's prices `[1, 2]` are entirely
out-of-the-money, so the step records no fit and keeps `V = [3, 4]`; an
explicit `none` entry makes the evaluation loop skip its date. -/
theorem C8_no_fit_skip_witness :
    trainStep np_polyfit 5 1 2 [1, 2] [3, 4] = (none, [3, 4]) ∧
    testFrom [none] [[7], [8]] 5 1 [3, 4] = testFrom [none] [[7], [8]] 5 0 [3, 4] :=
  C8_no_fit_skip np_polyfit 5 1 2 [1, 2] [3, 4] [none] [[7], [8]] 5 0 [3, 4]
    (by intro s hs; simp at hs; rcases hs with h | h <;> subst h <;> norm_num)
    (by simp)

/-- Claim C10: whenever at least one path is strictly in the money at a date,
the training loop body records a present coefficient vector of length
`degree + 1` (given a regression routine obeying numpy's `polyfit` output
contract) — never the no-fit marker, regardless of how few paths are in the
subset — in both the single-asset and the multi-asset engine. -/
theorem C10_fit_whenever_itm :
    ∀ (fit : Fit), (∀ X Y d, (fit X Y d).length = d + 1) →
    ∀ (K discount : ℝ) (deg : ℕ) (prices V : List ℝ) (i : ℕ),
      i < prices.length → i < V.length → K < prices.getD i 0 →
      (∃ c, (trainStep fit K discount deg prices V).1 = some c ∧
        c.length = deg + 1) ∧
      (∃ c, (MultiD.trainStep fit K discount deg prices V).1 = some c ∧
        c.length = deg + 1) := by
  intro fit hfit K discount deg prices V i h1 h2 hitm
  have hz : i < (prices.zip V).length := by rw [List.length_zip]; omega
  have hmem : (prices.getD i 0, V.getD i 0) ∈ prices.zip V := by
    rw [List.getD_eq_getElem _ _ h1, List.getD_eq_getElem _ _ h2]
    have := List.getElem_mem hz
    rwa [List.getElem_zip] at this
  have hfil : (prices.getD i 0, V.getD i 0) ∈
      (prices.zip V).filter fun p => p.1 > K := by
    rw [List.mem_filter]
    exact ⟨hmem, by simpa using hitm⟩
  have hne : (((prices.zip V).filter fun p => p.1 > K).map Prod.fst) ≠ [] := by
    intro hc
    rw [List.map_eq_nil_iff] at hc
    rw [hc] at hfil
    exact List.not_mem_nil _ hfil
  constructor
  · refine ⟨fit (((prices.zip V).filter fun p => p.1 > K).map Prod.fst)
      (((prices.zip V).filter fun p => p.1 > K).map fun p => p.2 * discount) deg,
      ?_, hfit _ _ _⟩
    simp only [trainStep]
    rw [if_neg hne]
  · refine ⟨fit (((prices.zip V).filter fun p => p.1 > K).map Prod.fst)
      (((prices.zip V).filter fun p => p.1 > K).map fun p => p.2 * discount) deg,
      ?_, hfit _ _ _⟩
    simp only [MultiD.trainStep]
    rw [if_neg hne]

/-- Witness for C10: strike 3, two paths with only one in the money
(`5 > 3`), degree 4 — fewer in-the-money paths than `degree + 1 = 5`
coefficients, and the recorded vector still has length 5, in both engines. -/
theorem C10_fit_whenever_itm_witness :
    (∃ c, (trainStep np_polyfit 3 1 4 [5, 1] [2, 2]).1 = some c ∧
      c.length = 5) ∧
    (∃ c, (MultiD.trainStep np_polyfit 3 1 4 [5, 1] [2, 2]).1 = some c ∧
      c.length = 5) :=
  C10_fit_whenever_itm np_polyfit
    (by intro X Y d; simp [np_polyfit]) 3 1 4 [5, 1] [2, 2] 0
    (by norm_num) (by norm_num) (by norm_num)
